import Mathlib

/-!
Shallow embedding of the tick logic of the AiBroforce game
(src GameScreen component: gameLoop, createEnemyBullet, swapHero, and the
GameEntityFactory).  Positions, velocities, health and damage are JS
numbers; they are modelled as rationals.  Entity ids are naturals.
-/

set_option maxRecDepth 4000

namespace Broforce

/-- Modelled from the spec: the file constants.ts is not under src/ (only its
importers are).  Its numeric constants are config data; they are kept
abstract as a record of parameters.  PI stands for the host Math.PI
double value, itself a rational. -/
structure Consts where
  GAME_WIDTH : ℚ
  GAME_HEIGHT : ℚ
  GRAVITY : ℚ
  BULLET_COOLDOWN : ℚ
  BULLET_SPEED : ℚ
  BULLET_WIDTH : ℚ
  BULLET_HEIGHT : ℚ
  PLAYER_SPEED : ℚ
  PLAYER_JUMP_FORCE : ℚ
  PI : ℚ
deriving DecidableEq

/-- Development flag from the top of the GameScreen file:
DEV_MODE_GOD_MODE = true ("Player cannot die"). -/
def DEV_MODE_GOD_MODE : Bool := true

inductive Dir | left | right
deriving DecidableEq, Repr

inductive Owner | player | enemy | turret
deriving DecidableEq, Repr

inductive PowerUpType | rapid_fire | spread_shot | damage_boost
deriving DecidableEq, Repr

inductive EnemyBehavior | patrol | chase | stationary | boss
deriving DecidableEq, Repr

inductive Difficulty | EASY | NORMAL | HARD
deriving DecidableEq, Repr

/-- Axis-aligned rectangle, the common positional interface of entities. -/
structure Rect where
  x : ℚ
  y : ℚ
  width : ℚ
  height : ℚ
deriving DecidableEq

/-- Player record (the avatar).  The hero profile reference is flattened to
the two fields the tick logic reads (hero.weaponType and
hero.movementAbility). -/
structure Player where
  id : ℕ
  x : ℚ
  y : ℚ
  width : ℚ
  height : ℚ
  weaponType : String
  movementAbility : String
  health : ℚ
  maxHealth : ℚ
  direction : Dir
  lives : ℕ
  specialAbilityCooldown : ℚ
  isInvincible : Bool
  invincibilityTimer : ℚ
  damageFlash : ℚ
  hasDoubleJumped : Bool
  isWallSliding : Bool
  dashTimer : ℚ
  activePowerUp : Option PowerUpType
  powerUpTimer : ℚ
deriving DecidableEq

structure Enemy where
  id : ℕ
  x : ℚ
  y : ℚ
  width : ℚ
  height : ℚ
  villainWeaponType : String
  health : ℚ
  maxHealth : ℚ
  direction : Dir
  moveSpeed : ℚ
  shootCooldown : ℚ
  isBoss : Bool
  damageFlash : ℚ
  aiBehavior : EnemyBehavior
deriving DecidableEq

structure Bullet where
  id : ℕ
  x : ℚ
  y : ℚ
  width : ℚ
  height : ℚ
  owner : Owner
  weaponType : String
  vx : ℚ
  vy : ℚ
  damage : ℚ
deriving DecidableEq

structure Crate where
  id : ℕ
  x : ℚ
  y : ℚ
  width : ℚ
  height : ℚ
  health : ℚ
deriving DecidableEq

structure RescueCage where
  id : ℕ
  x : ℚ
  y : ℚ
  width : ℚ
  height : ℚ
  health : ℚ
deriving DecidableEq

def Player.rect (p : Player) : Rect := ⟨p.x, p.y, p.width, p.height⟩

def Enemy.rect (e : Enemy) : Rect := ⟨e.x, e.y, e.width, e.height⟩

def Bullet.rect (b : Bullet) : Rect := ⟨b.x, b.y, b.width, b.height⟩

def Crate.rect (c : Crate) : Rect := ⟨c.x, c.y, c.width, c.height⟩

def RescueCage.rect (c : RescueCage) : Rect := ⟨c.x, c.y, c.width, c.height⟩

/-- Shared AABB overlap predicate (checkCollision in the source): strict
inequalities on both axes, edge touching is not a hit. -/
def checkCollision (a b : Rect) : Bool :=
  decide (a.x < b.x + b.width) && decide (a.x + a.width > b.x) &&
  decide (a.y < b.y + b.height) && decide (a.y + a.height > b.y)

/-- Substring test on character lists, standing for the JS
String.prototype.includes used throughout the source. -/
def hasSubChars : List Char → List Char → Bool
  | [], pat => pat.isEmpty
  | ch :: t, pat => pat.isPrefixOf (ch :: t) || hasSubChars t pat

/-- JS s.includes(pat) on Lean strings. -/
def strIncludes (s pat : String) : Bool := hasSubChars s.toList pat.toList

/-- JS s.toLowerCase(), written over the character list so that it
evaluates inside the kernel. -/
def strToLower (s : String) : String := ⟨s.data.map Char.toLower⟩

/-- GameEntityFactory.createBullet: width and height come from the bullet
constants; the id is the factory counter value at creation time. -/
def createBullet (c : Consts) (id : ℕ) (x y : ℚ) (owner : Owner)
    (weaponType : String) (vx vy damage : ℚ) : Bullet :=
  ⟨id, x, y, c.BULLET_WIDTH, c.BULLET_HEIGHT, owner, weaponType, vx, vy, damage⟩

/-- Kind tags of the per-tick damage-event batch. -/
inductive TargetKind | player | enemy | crate | cage
deriving DecidableEq, Repr

/-- One entry of the damageEvents array built during bullet hit detection. -/
structure DamageEvent where
  kind : TargetKind
  id : ℕ
  amount : ℚ
deriving DecidableEq

/-- Bullet advance (the movedBullets map): position moves by the velocity;
grenade-type bullets additionally accelerate downward by GRAVITY / 1.5. -/
def moveBullet (c : Consts) (b : Bullet) : Bullet :=
  { b with
    x := b.x + b.vx
    y := b.y + (if strIncludes (strToLower b.weaponType) "grenade"
                then b.vy + c.GRAVITY / 1.5 else b.vy)
    vy := if strIncludes (strToLower b.weaponType) "grenade"
          then b.vy + c.GRAVITY / 1.5 else b.vy }

/-- Bounds filter on moved bullets: kept iff x is within (-100, width+100)
and y is below height+100.  There is no lower bound on y. -/
def bulletInBounds (c : Consts) (b : Bullet) : Bool :=
  decide (b.x > -100) && decide (b.x < c.GAME_WIDTH + 100) &&
  decide (b.y < c.GAME_HEIGHT + 100)

/-- The movedBullets list of a tick: every live bullet advanced and then
passed through the bounds filter. -/
def movedBullets (c : Consts) (bullets : List Bullet) : List Bullet :=
  (bullets.map (moveBullet c)).filter (bulletInBounds c)

/-- Hit detection for one bullet (the body of the movedBullets.forEach):
categories checked in order player, enemies, crates, cages, each gated on
no earlier hit; then the grenade ground-detonation case.  Returns the
damage events pushed for this bullet and the final hit flag.  The player
branch pushes nothing when the god-mode flag is set. -/
def bulletEvents (c : Consts) (godMode : Bool) (p : Player)
    (enemies : List Enemy) (crates : List Crate) (cages : List RescueCage)
    (b : Bullet) : List DamageEvent × Bool :=
  let s0 : List DamageEvent × Bool := ([], false)
  let s1 :=
    if b.owner != Owner.player && !p.isInvincible &&
        checkCollision b.rect p.rect then
      if !godMode then ([⟨TargetKind.player, p.id, b.damage⟩], true) else s0
    else s0
  let s2 :=
    if b.owner == Owner.player && !s1.2 then
      match enemies.find? (fun e => checkCollision b.rect e.rect) with
      | some e => (s1.1 ++ [⟨TargetKind.enemy, e.id, b.damage⟩], true)
      | none => s1
    else s1
  let s3 :=
    if b.owner == Owner.player && !s2.2 then
      match crates.find? (fun cr => checkCollision b.rect cr.rect) with
      | some cr => (s2.1 ++ [⟨TargetKind.crate, cr.id, b.damage⟩], true)
      | none => s2
    else s2
  let s4 :=
    if b.owner == Owner.player && !s3.2 then
      match cages.find? (fun cg => checkCollision b.rect cg.rect) with
      | some cg => (s3.1 ++ [⟨TargetKind.cage, cg.id, b.damage⟩], true)
      | none => s3
    else s3
  if !s4.2 && strIncludes (strToLower b.weaponType) "grenade" &&
      decide (b.y ≥ c.GAME_HEIGHT - 50 - b.height) then
    (s4.1, true)
  else s4

/-- The forEach over movedBullets: accumulates the damageEvents array and
the bulletsToRemove id set, skipping a bullet whose id is already in the
remove set. -/
def processBullets (c : Consts) (godMode : Bool) (p : Player)
    (enemies : List Enemy) (crates : List Crate) (cages : List RescueCage)
    (moved : List Bullet) : List DamageEvent × List ℕ :=
  moved.foldl
    (fun acc b =>
      if acc.2.contains b.id then acc
      else
        let r := bulletEvents c godMode p enemies crates cages b
        (acc.1 ++ r.1, if r.2 then acc.2 ++ [b.id] else acc.2))
    ([], [])

/-- Sum of the amounts of a list of damage events (the reduce in the
source). -/
def sumAmounts (evs : List DamageEvent) : ℚ :=
  evs.foldl (fun s e => s + e.amount) 0

/-- Player damage application: all player-kind events of the tick are
summed and applied in one state update. -/
def playerAfterDamage (evs : List DamageEvent) (p : Player) : Player :=
  let playerHits := evs.filter (fun e => e.kind == TargetKind.player)
  if 0 < playerHits.length then
    { p with health := p.health - sumAmounts playerHits, damageFlash := 5 }
  else p

/-- Per-enemy damage application (body of the setEnemies map). -/
def enemyApply (evs : List DamageEvent) (e : Enemy) : Enemy :=
  let hits := evs.filter
    (fun d => d.kind == TargetKind.enemy && d.id == e.id)
  if hits.length == 0 then e
  else { e with health := e.health - sumAmounts hits, damageFlash := 5 }

/-- Enemy store after tick damage application: the damage map runs when any damage
events exist, and the explicit dead-enemy filter runs only when some
enemy-kind event exists. -/
def enemiesAfterDamage (evs : List DamageEvent) (es : List Enemy) :
    List Enemy :=
  let mapped := if 0 < evs.length then es.map (enemyApply evs) else es
  if evs.any (fun d => d.kind == TargetKind.enemy) then
    mapped.filter (fun e => decide (e.health > 0))
  else mapped

/-- Per-crate damage application (body of the setCrates map). -/
def crateApply (evs : List DamageEvent) (cr : Crate) : Crate :=
  let hits := evs.filter
    (fun d => d.kind == TargetKind.crate && d.id == cr.id)
  if hits.length == 0 then cr
  else { cr with health := cr.health - sumAmounts hits }

/-- Damage events of a tick addressed to one cage. -/
def cageHits (evs : List DamageEvent) (cg : RescueCage) :
    List DamageEvent :=
  evs.filter (fun d => d.kind == TargetKind.cage && d.id == cg.id)

/-- Accumulated damage addressed to one cage in a tick. -/
def cageDamage (evs : List DamageEvent) (cg : RescueCage) : ℚ :=
  sumAmounts (cageHits evs cg)

/-- Per-cage damage application (body of the setCages map).  The boolean
records whether this cage crossed from positive to non-positive health in
this tick, which is exactly the condition firing the rescue side effects
(rescue sound, one extra life, one swapHero profile-swap request).  Note
the returned cage is never removed: the store keeps cages at
non-positive health. -/
def cageUpdate (evs : List DamageEvent) (cg : RescueCage) :
    RescueCage × Bool :=
  if (cageHits evs cg).length == 0 then (cg, false)
  else
    let damage := cageDamage evs cg
    ({ cg with health := cg.health - damage },
     decide (cg.health - damage ≤ 0) && decide (cg.health > 0))

/-- Player mutation performed by swapHero on a rescue: full heal, reset
special cooldown, brief invincibility.  The hero identity drawn at random
from the external roster is not modelled; the profile-dependent string
fields are left unchanged. -/
def swapHeroApply (p : Player) : Player :=
  { p with
    health := p.maxHealth
    specialAbilityCooldown := 0
    isInvincible := true
    invincibilityTimer := 120 }

/-- Per-tick combat-resolution state: the stores read at the start of the
bullet movement and collision section of the game loop. -/
structure CombatState where
  player : Player
  enemies : List Enemy
  crates : List Crate
  cages : List RescueCage
  bullets : List Bullet
deriving DecidableEq

/-- Result of the combat-resolution section: the stores as they stand at
the start of the next tick, plus the number of cage rescues triggered
(each rescue is one extra life and one profile-swap request). -/
structure CombatOut where
  player : Player
  enemies : List Enemy
  crates : List Crate
  cages : List RescueCage
  bullets : List Bullet
  rescues : ℕ
deriving DecidableEq

/-- Surviving bullets of the tick: moved bullets not marked for removal,
followed by the bullets fired this tick. -/
def survivingBullets (removeIds : List ℕ) (moved newBullets : List Bullet) :
    List Bullet :=
  moved.filter (fun b => !(removeIds.contains b.id)) ++ newBullets

/-- The damage events and remove set computed by a tick from a combat
state. -/
def tickEvents (c : Consts) (godMode : Bool) (s : CombatState) :
    List DamageEvent × List ℕ :=
  processBullets c godMode s.player s.enemies s.crates s.cages
    (movedBullets c s.bullets)

/-- The bullet movement, hit detection and damage application section of
the game loop (lines 551-705 of the GameScreen source), as one function
from the tick-start stores to the next-tick stores.  newBullets are the
bullets fired earlier in the same tick.  Damage application runs only
when the event batch is non-empty; cage rescues add lives and apply the
swapHero player mutation; the dead-enemy filter is part of
enemiesAfterDamage. -/
def combatPhase (c : Consts) (godMode : Bool) (newBullets : List Bullet)
    (s : CombatState) : CombatOut :=
  let evs := (tickEvents c godMode s).1
  let removeIds := (tickEvents c godMode s).2
  let rescues :=
    if 0 < evs.length then
      (s.cages.map (cageUpdate evs)).countP (fun x => x.2)
    else 0
  { player :=
      if 0 < evs.length then
        let p1 := playerAfterDamage evs s.player
        let p2 := { p1 with lives := p1.lives + rescues }
        if 0 < rescues then swapHeroApply p2 else p2
      else s.player
    enemies := enemiesAfterDamage evs s.enemies
    crates :=
      if 0 < evs.length then
        (s.crates.map (crateApply evs)).filter
          (fun cr => decide (cr.health > 0))
      else s.crates
    cages :=
      if 0 < evs.length then
        (s.cages.map (cageUpdate evs)).map Prod.fst
      else s.cages
    bullets := survivingBullets removeIds (movedBullets c s.bullets)
      newBullets
    rescues := rescues }

/-- Per-tick cooldown countdown (setBulletCooldown at the top of the
loop): decrease by one, clamped at zero. -/
def cooldownStep (cd : ℚ) : ℚ := max 0 (cd - 1)

/-- Fire gate of the player shooting block: fire input held and the
cooldown state read at tick start equal to zero. -/
def canFire (shoot : Bool) (cd : ℚ) : Bool := shoot && decide (cd = 0)

/-- Number of cooldown countdown ticks until the fire gate value reaches
zero again, for a cooldown set to v at firing time.  Justified against
cooldownStep by the readiness and minimality facts proved below. -/
def ticksToReady (v : ℚ) : ℕ := (⌈v⌉).toNat

/-- The player shooting block (lines 266-337 of the source), given that
the fire gate passed.  rand stands for the per-call Math.random values,
cosFn and sinFn for the host Math.cos and Math.sin; startId is the
factory id counter.  Returns the bullets pushed and the cooldown value
the block stores, if any (the spread-shot branch stores none; the
trailing guarded set for the default weapon without power-up re-stores
the same value). -/
def shootResult (c : Consts) (startId : ℕ) (rand : ℕ → ℚ)
    (cosFn sinFn : ℚ → ℚ) (p : Player) : List Bullet × Option ℚ :=
  let weapon := strToLower p.weaponType
  let baseY := p.y + p.height / 2 - c.BULLET_HEIGHT / 2
  let damage : ℚ :=
    if p.activePowerUp == some PowerUpType.damage_boost then 20 * 2 else 20
  let cooldown : ℚ :=
    if p.activePowerUp == some PowerUpType.rapid_fire
    then c.BULLET_COOLDOWN / 2 else c.BULLET_COOLDOWN
  if p.activePowerUp == some PowerUpType.spread_shot then
    let dir : ℚ := if p.direction == Dir.right then 1 else -1
    let bx := p.x + (if p.direction == Dir.right then p.width
                     else -c.BULLET_WIDTH)
    let mk := fun (idx : ℕ) (angle : ℚ) =>
      let rad := angle * (c.PI / 180)
      createBullet c (startId + idx) bx baseY Owner.player p.weaponType
        (cosFn rad * dir * c.BULLET_SPEED) (sinFn rad * c.BULLET_SPEED)
        damage
    ([mk 0 (-15), mk 1 0, mk 2 15], none)
  else if strIncludes weapon "shotgun" then
    ((List.range 5).map (fun i =>
      createBullet c (startId + i)
        (p.x + (if p.direction == Dir.right then p.width
                else -c.BULLET_WIDTH))
        baseY Owner.player p.weaponType
        ((if p.direction == Dir.right then (1 : ℚ) else -1) *
          c.BULLET_SPEED * (0.8 + rand i * 0.4))
        (((i : ℚ) - 2) * 1.5) damage),
     some (cooldown * 2.5))
  else if strIncludes weapon "grenade" then
    ([createBullet c startId
        (p.x + (if p.direction == Dir.right then p.width / 2 else 0))
        baseY Owner.player p.weaponType
        ((if p.direction == Dir.right then (1 : ℚ) else -1) *
          c.BULLET_SPEED * 0.7)
        (-10) (damage * 1.5)],
     some (cooldown * 3))
  else
    ([createBullet c startId
        (p.x + (if p.direction == Dir.right then p.width
                else -c.BULLET_WIDTH))
        baseY Owner.player p.weaponType
        ((if p.direction == Dir.right then (1 : ℚ) else -1) *
          c.BULLET_SPEED)
        0 damage],
     some cooldown)

/-- Shooter kind of createEnemyBullet (Enemy or Turret argument). -/
inductive ShooterKind | enemy | turret
deriving DecidableEq, Repr

/-- The createEnemyBullet helper of the game loop: one bullet toward the
target at 0.8 bullet speed; on HARD difficulty an enemy (not turret)
shooter instead produces three bullets with vertical velocities 0, 2 and
-2 sharing the same horizontal velocity. -/
def createEnemyBullet (c : Consts) (difficulty : Difficulty) (startId : ℕ)
    (shooterKind : ShooterKind) (shooterVillainWeapon : String)
    (sx sy sw sh targetX : ℚ) : List Bullet :=
  let dirToPlayer : ℚ := if targetX > sx then 1 else -1
  let ownerType := if shooterKind == ShooterKind.turret then Owner.turret
                   else Owner.enemy
  let weaponType := if shooterKind == ShooterKind.enemy
                    then shooterVillainWeapon else "Rifle"
  let bx := sx + (if dirToPlayer == 1 then sw else -c.BULLET_WIDTH)
  let bYpos := sy + sh / 2
  let b1 := createBullet c startId bx bYpos ownerType weaponType
    (dirToPlayer * c.BULLET_SPEED * 0.8) 0 10
  if difficulty == Difficulty.HARD && shooterKind == ShooterKind.enemy then
    [b1,
     createBullet c (startId + 1) bx bYpos ownerType weaponType
       (dirToPlayer * c.BULLET_SPEED * 0.8) 2 10,
     createBullet c (startId + 2) bx bYpos ownerType weaponType
       (dirToPlayer * c.BULLET_SPEED * 0.8) (-2) 10]
  else [b1]

/-- Output of the jump resolution section. -/
structure JumpOut where
  yVelocity : ℚ
  didJump : Bool
  consumed : Bool
  coyote : ℕ
  player : Player
  sounds : List String
deriving DecidableEq

/-- The jump section of the player physics (lines 230-259 of the source):
grounding primes the coyote counter to 5; a buffered jump command then
resolves as ground or coyote jump, else wall jump, else double jump
(movement ability containing the word double and not yet used), else
nothing.  A successful jump plays the jump sound, zeroes the coyote
counter, ends wall sliding and consumes the buffered command. -/
def jumpStep (c : Consts) (p : Player) (jumpCmd : Bool) (coyote : ℕ)
    (onGround : Bool) (isWallSliding : Bool) (vy : ℚ) : JumpOut :=
  let coyote0 := if onGround then 5 else coyote
  let movementAbility := strToLower p.movementAbility
  let r : ℚ × Bool × Bool × Player :=
    if jumpCmd then
      if 0 < coyote0 then (-c.PLAYER_JUMP_FORCE, true, true, p)
      else if isWallSliding then
        let wallJumpDirection : ℚ := if p.direction == Dir.right then -1
                                     else 1
        (-c.PLAYER_JUMP_FORCE * 1.1, true, true,
         { p with
           x := p.x + wallJumpDirection * c.PLAYER_SPEED
           direction := if wallJumpDirection == 1 then Dir.right
                        else Dir.left })
      else if strIncludes movementAbility "double" && !p.hasDoubleJumped
      then
        (-c.PLAYER_JUMP_FORCE, true, true, { p with hasDoubleJumped := true })
      else (vy, false, false, p)
    else (vy, false, false, p)
  if r.2.1 then
    ⟨r.1, true, r.2.2.1, 0, { r.2.2.2 with isWallSliding := false },
     ["jump"]⟩
  else ⟨r.1, false, r.2.2.1, coyote0, r.2.2.2, []⟩

/-! Concrete sample data used by the witness and counterexample theorems.
The constant values play the role of one possible constants.ts
configuration; all general theorems quantify over the configuration. -/

/-- Sample configuration: width 800, height 600, gravity 1, bullet
cooldown 15, bullet speed 12, bullet size 8 by 4, player speed 5, jump
force 13, and a rational standing for Math.PI. -/
def cEx : Consts := ⟨800, 600, 1, 15, 12, 8, 4, 5, 13, 314159 / 100000⟩

/-- Sample avatar: full health 100 of 100, rifle, no power-up, not
invincible. -/
def pEx : Player :=
  { id := 1, x := 100, y := 100, width := 30, height := 40,
    weaponType := "Rifle", movementAbility := "Jump",
    health := 100, maxHealth := 100, direction := Dir.right, lives := 3,
    specialAbilityCooldown := 0, isInvincible := false,
    invincibilityTimer := 0, damageFlash := 0, hasDoubleJumped := false,
    isWallSliding := false, dashTimer := 0, activePowerUp := none,
    powerUpTimer := 0 }

/-- Sample avatar standing away from all sample projectiles. -/
def pFar : Player := { pEx with x := 700, y := 500 }

/-- Enemy projectile of damage 10 that overlaps pEx after moving. -/
def bHit10 : Bullet := ⟨10, 95, 110, 8, 4, Owner.enemy, "Rifle", 10, 0, 10⟩

/-- Enemy projectile of damage 15 that overlaps pEx after moving. -/
def bHit15 : Bullet := ⟨11, 140, 120, 8, 4, Owner.enemy, "Rifle", -20, 0, 15⟩

/-- Combat state of the two-simultaneous-hits scenario. -/
def sTwoHits : CombatState := ⟨pEx, [], [], [], [bHit10, bHit15]⟩

/-- Sample cage with 10 health. -/
def cgEx : RescueCage := ⟨20, 100, 300, 40, 40, 10⟩

/-- Player projectile of damage 20 that overlaps cgEx after moving. -/
def bCage : Bullet := ⟨12, 90, 305, 8, 4, Owner.player, "Rifle", 15, 0, 20⟩

/-- Combat state in which cgEx is destroyed this tick. -/
def sCage : CombatState := ⟨pFar, [], [], [cgEx], [bCage]⟩

/-- Player projectile moving upward that sits 400 above the top edge
after the move step of this tick. -/
def bTop : Bullet := ⟨13, 100, -490, 8, 4, Owner.player, "Rifle", 0, -10, 20⟩

/-- Combat state with only the above-the-top projectile. -/
def sTop : CombatState := ⟨pFar, [], [], [], [bTop]⟩

/-- Stationary player projectile hitting nothing, inside bounds. -/
def bStay : Bullet := ⟨14, 100, 100, 8, 4, Owner.player, "Rifle", 0, 0, 20⟩

/-- Combat state whose only projectile survives the tick. -/
def sStay : CombatState := ⟨pFar, [], [], [], [bStay]⟩

/-- Sample enemy with 20 health. -/
def eEx : Enemy :=
  ⟨30, 300, 300, 40, 40, "Rifle", 20, 20, Dir.left, 1, 60, false, 0,
   EnemyBehavior.stationary⟩

/-- Player projectile of damage 25 that overlaps eEx after moving. -/
def bKill : Bullet := ⟨15, 290, 310, 8, 4, Owner.player, "Rifle", 15, 0, 25⟩

/-- Combat state in which eEx dies this tick. -/
def sKill : CombatState := ⟨pFar, [eEx], [], [], [bKill]⟩

/-- Sample damage event of 30 addressed to the sample cage. -/
def evCage : DamageEvent := ⟨TargetKind.cage, 20, 30⟩

/-- Constant-zero random stream. -/
def zeroRand : ℕ → ℚ := fun _ => 0

/-- Constant-zero stand-in for a host trigonometric function. -/
def zeroFn : ℚ → ℚ := fun _ => 0

/-! Helper lemmas shared by the claim proofs.  The beq lemmas rewrite the
derived boolean equality tests to decidable propositions; the ne lemmas
let simp close closed constructor disequalities; the string lemmas
evaluate the substring tests occurring in the sample data. -/

lemma owner_beq (a b : Owner) : (a == b) = decide (a = b) := rfl

lemma owner_bne (a b : Owner) : (a != b) = !decide (a = b) := rfl

lemma tk_beq (a b : TargetKind) : (a == b) = decide (a = b) := rfl

lemma dir_beq (a b : Dir) : (a == b) = decide (a = b) := rfl

lemma diff_beq (a b : Difficulty) : (a == b) = decide (a = b) := rfl

lemma sk_beq (a b : ShooterKind) : (a == b) = decide (a = b) := rfl

lemma optPow_beq (a b : Option PowerUpType) : (a == b) = decide (a = b) := by
  cases a <;> cases b <;>
    first
      | rfl
      | (rename_i x y
         rcases x <;> rcases y <;> rfl)

lemma owner_enemy_ne_player : Owner.enemy ≠ Owner.player := by decide

lemma owner_turret_ne_player : Owner.turret ≠ Owner.player := by decide

lemma tk_pe : TargetKind.player ≠ TargetKind.enemy := by decide

lemma tk_pc : TargetKind.player ≠ TargetKind.crate := by decide

lemma tk_pg : TargetKind.player ≠ TargetKind.cage := by decide

lemma tk_ep : TargetKind.enemy ≠ TargetKind.player := by decide

lemma tk_ec : TargetKind.enemy ≠ TargetKind.crate := by decide

lemma tk_eg : TargetKind.enemy ≠ TargetKind.cage := by decide

lemma tk_cp : TargetKind.crate ≠ TargetKind.player := by decide

lemma tk_ce : TargetKind.crate ≠ TargetKind.enemy := by decide

lemma tk_cg : TargetKind.crate ≠ TargetKind.cage := by decide

lemma tk_gp : TargetKind.cage ≠ TargetKind.player := by decide

lemma tk_ge : TargetKind.cage ≠ TargetKind.enemy := by decide

lemma tk_gc : TargetKind.cage ≠ TargetKind.crate := by decide

lemma dir_lr : Dir.left ≠ Dir.right := by decide

lemma dir_rl : Dir.right ≠ Dir.left := by decide

lemma pow_rs : PowerUpType.rapid_fire ≠ PowerUpType.spread_shot := by decide

lemma pow_rb : PowerUpType.rapid_fire ≠ PowerUpType.damage_boost := by decide

lemma pow_sr : PowerUpType.spread_shot ≠ PowerUpType.rapid_fire := by decide

lemma pow_sb : PowerUpType.spread_shot ≠ PowerUpType.damage_boost := by
  decide

lemma pow_br : PowerUpType.damage_boost ≠ PowerUpType.rapid_fire := by decide

lemma pow_bs : PowerUpType.damage_boost ≠ PowerUpType.spread_shot := by
  decide

lemma none_ne_somePow (x : PowerUpType) :
    (none : Option PowerUpType) ≠ some x := fun h => Option.noConfusion h

lemma somePow_ne_none (x : PowerUpType) :
    some x ≠ (none : Option PowerUpType) := fun h => Option.noConfusion h

lemma diff_eh : Difficulty.EASY ≠ Difficulty.HARD := by decide

lemma diff_nh : Difficulty.NORMAL ≠ Difficulty.HARD := by decide

lemma rifle_no_grenade : strIncludes (strToLower "Rifle") "grenade" = false := by
  decide

lemma rifle_no_shotgun : strIncludes (strToLower "Rifle") "shotgun" = false := by
  decide

lemma jump_no_double : strIncludes (strToLower "Jump") "double" = false := by
  decide

lemma combatPhase_bullets (c : Consts) (g : Bool) (nb : List Bullet)
    (s : CombatState) :
    (combatPhase c g nb s).bullets =
      survivingBullets (tickEvents c g s).2 (movedBullets c s.bullets) nb :=
  rfl

lemma combatPhase_crates (c : Consts) (g : Bool) (nb : List Bullet)
    (s : CombatState) :
    (combatPhase c g nb s).crates =
      (if 0 < ((tickEvents c g s).1).length then
        (s.crates.map (crateApply (tickEvents c g s).1)).filter
          (fun cr => decide (cr.health > 0))
      else s.crates) :=
  rfl

lemma combatPhase_enemies (c : Consts) (g : Bool) (nb : List Bullet)
    (s : CombatState) :
    (combatPhase c g nb s).enemies =
      enemiesAfterDamage (tickEvents c g s).1 s.enemies :=
  rfl

lemma playerAfterDamage_lives (evs : List DamageEvent) (p : Player) :
    (playerAfterDamage evs p).lives = p.lives := by
  simp only [playerAfterDamage]
  split <;> rfl

lemma combatPhase_lives (c : Consts) (g : Bool) (nb : List Bullet)
    (s : CombatState) :
    (combatPhase c g nb s).player.lives =
      s.player.lives + (combatPhase c g nb s).rescues := by
  unfold combatPhase
  dsimp only
  split
  · split
    · simp [swapHeroApply, playerAfterDamage_lives]
    · simp [playerAfterDamage_lives]
  · rfl

/-! Claim theorems follow, one per claim of the specification review. -/

/-- C2: with the shipped DEV_MODE_GOD_MODE = true, an avatar at full
health 100, not invincible, overlapped by two enemy projectiles of damage
10 and 15 in one tick, keeps health 100 (the claimed 75 is never
reached); with the flag off, the same tick yields exactly 75, showing the
same-tick accumulation the claim describes is implemented but disabled by
the development flag. -/
theorem c2_god_mode_blocks_player_damage :
    (combatPhase cEx DEV_MODE_GOD_MODE [] sTwoHits).player.health = 100
    ∧ (combatPhase cEx false [] sTwoHits).player.health = 75 := by
  constructor <;>
  norm_num [combatPhase, tickEvents, processBullets, movedBullets, moveBullet,
    bulletInBounds, bulletEvents, checkCollision, playerAfterDamage,
    sumAmounts, enemiesAfterDamage, enemyApply, crateApply, cageUpdate,
    cageHits, cageDamage, swapHeroApply, survivingBullets, cEx, pEx, bHit10,
    bHit15, sTwoHits, DEV_MODE_GOD_MODE, Bullet.rect, Player.rect,
    owner_beq, tk_beq, owner_bne, owner_enemy_ne_player, rifle_no_grenade]

/-- C1 counterexample: a cage brought to health -10 in this tick is still
present in the cage store handed to the next tick, so a non-avatar entity
with health below zero at end of tick is not absent from the store. -/
theorem c1_cage_retained_counterexample :
    (combatPhase cEx DEV_MODE_GOD_MODE [] sCage).cages =
      [⟨20, 100, 300, 40, 40, -10⟩]
    ∧ ((-10 : ℚ) ≤ 0) := by
  constructor <;>
  norm_num [combatPhase, tickEvents, processBullets, movedBullets, moveBullet,
    bulletInBounds, bulletEvents, checkCollision, playerAfterDamage,
    sumAmounts, enemiesAfterDamage, enemyApply, crateApply, cageUpdate,
    cageHits, cageDamage, swapHeroApply, survivingBullets, cEx, pEx, pFar,
    cgEx, bCage, sCage, DEV_MODE_GOD_MODE, Bullet.rect, Player.rect,
    RescueCage.rect, owner_beq, tk_beq, owner_bne, tk_gp, tk_ge, tk_gc,
    rifle_no_grenade]

/-- C4 counterexample: a projectile sitting at y = -500 after movement,
400 beyond the margin above the top edge, survives into the bullet store
of the next tick, because the bounds filter has no lower y bound. -/
theorem c4_top_edge_counterexample :
    (combatPhase cEx DEV_MODE_GOD_MODE [] sTop).bullets.map Bullet.y =
      [-500]
    ∧ ((-500 : ℚ) < 0 - 100) := by
  constructor <;>
  norm_num [combatPhase, tickEvents, processBullets, movedBullets, moveBullet,
    bulletInBounds, bulletEvents, checkCollision, playerAfterDamage,
    sumAmounts, enemiesAfterDamage, enemyApply, crateApply, cageUpdate,
    cageHits, cageDamage, swapHeroApply, survivingBullets, cEx, pEx, pFar,
    bTop, sTop, DEV_MODE_GOD_MODE, Bullet.rect, Player.rect,
    owner_beq, tk_beq, owner_bne, rifle_no_grenade]

/-- C3: hit detection produces at most one damage event per projectile per
tick: the categories are checked in the order avatar, hostiles,
destructible crates, cages, each gated on no earlier hit having been
registered for this projectile, so once a category consumes the
projectile no later category records a hit. -/
theorem c3_at_most_one_damage_event (c : Consts) (g : Bool) (p : Player)
    (es : List Enemy) (crs : List Crate) (cgs : List RescueCage)
    (b : Bullet) :
    (bulletEvents c g p es crs cgs b).1.length ≤ 1 := by
  by_cases h1 : (b.owner != Owner.player && !p.isInvincible &&
      checkCollision b.rect p.rect) = true <;>
  by_cases hg : g = true <;>
  by_cases hOwn : (b.owner == Owner.player) = true <;>
  rcases hf2 : es.find? (fun e => checkCollision b.rect e.rect) with _ | e <;>
  rcases hf3 : crs.find? (fun cr => checkCollision b.rect cr.rect)
    with _ | cr <;>
  rcases hf4 : cgs.find? (fun cg => checkCollision b.rect cg.rect)
    with _ | cg <;>
  simp [bulletEvents, h1, hg, hOwn, hf2, hf3, hf4] <;>
  split <;> simp

lemma enemyApply_id_of_no_enemy_events (evs : List DamageEvent)
    (h : evs.any (fun d => d.kind == TargetKind.enemy) = false)
    (e : Enemy) : enemyApply evs e = e := by
  unfold enemyApply
  have hnil : evs.filter
      (fun d => d.kind == TargetKind.enemy && d.id == e.id) = [] := by
    rw [List.filter_eq_nil_iff]
    intro d hd
    have hd2 := (List.any_eq_false.mp h) d hd
    simp_all
  simp [hnil]

/-- C1 amended: hostiles and destructible crates with health not above
zero at the end of a tick are absent from their stores at the start of
the next tick (given all stored ones started the tick with positive
health); objective cages are excepted: the cage store never removes
entries, a destroyed cage stays at non-positive health (see the
counterexample). -/
theorem c1_dead_removal_amended (c : Consts) (g : Bool)
    (nb : List Bullet) (s : CombatState)
    (hE : ∀ e ∈ s.enemies, 0 < e.health)
    (hC : ∀ cr ∈ s.crates, 0 < cr.health) :
    (∀ e ∈ (combatPhase c g nb s).enemies, 0 < e.health)
    ∧ (∀ cr ∈ (combatPhase c g nb s).crates, 0 < cr.health) := by
  constructor
  · intro e he
    rw [combatPhase_enemies] at he
    unfold enemiesAfterDamage at he
    by_cases hany : ((tickEvents c g s).1).any
        (fun d => d.kind == TargetKind.enemy) = true
    · rw [if_pos hany] at he
      have hm := List.mem_filter.mp he
      simpa using hm.2
    · have hany2 : ((tickEvents c g s).1).any
          (fun d => d.kind == TargetKind.enemy) = false := by
        simpa using hany
      rw [if_neg (by simp [hany2])] at he
      by_cases hlen : 0 < ((tickEvents c g s).1).length
      · rw [if_pos hlen] at he
        obtain ⟨e0, he0, hmap⟩ := List.mem_map.mp he
        rw [enemyApply_id_of_no_enemy_events _ hany2 e0] at hmap
        exact hmap ▸ hE e0 he0
      · rw [if_neg hlen] at he
        exact hE e he
  · intro cr hcr
    rw [combatPhase_crates] at hcr
    by_cases hlen : 0 < ((tickEvents c g s).1).length
    · rw [if_pos hlen] at hcr
      have hm := List.mem_filter.mp hcr
      simpa using hm.2
    · rw [if_neg hlen] at hcr
      exact hC cr hcr

/-- C1 amended witness: in the sample state an enemy at 20 health takes
25 damage this tick; the theorem applies and the resulting enemy store
holds only positive-health enemies (here it is empty). -/
theorem c1_dead_removal_amended_witness :
    (∀ e ∈ sKill.enemies, 0 < e.health)
    ∧ (∀ cr ∈ sKill.crates, 0 < cr.health)
    ∧ (∀ e ∈ (combatPhase cEx DEV_MODE_GOD_MODE [] sKill).enemies,
        0 < e.health) := by
  have h1 : ∀ e ∈ sKill.enemies, 0 < e.health := by
    intro e he
    simp only [sKill, List.mem_singleton] at he
    subst he
    norm_num [eEx]
  have h2 : ∀ cr ∈ sKill.crates, 0 < cr.health := by
    intro cr hcr
    simp [sKill] at hcr
  exact ⟨h1, h2,
    (c1_dead_removal_amended cEx DEV_MODE_GOD_MODE [] sKill h1 h2).1⟩

/-- C4 amended: every projectile present in the bullet store at the start
of the next tick was either fired this tick or lies within the bounds
filter, which only constrains the left, right and bottom margins (x
strictly between -100 and width + 100 and y strictly below height + 100);
there is no constraint above the top edge, so the original claim fails
there (see the counterexample). -/
theorem c4_bounds_amended (c : Consts) (g : Bool) (nb : List Bullet)
    (s : CombatState) (b : Bullet)
    (hb : b ∈ (combatPhase c g nb s).bullets) :
    b ∈ nb ∨ (-100 < b.x ∧ b.x < c.GAME_WIDTH + 100 ∧
      b.y < c.GAME_HEIGHT + 100) := by
  rw [combatPhase_bullets] at hb
  unfold survivingBullets at hb
  rcases List.mem_append.mp hb with h | h
  · right
    have h2 := (List.mem_filter.mp h).1
    unfold movedBullets at h2
    have h3 := (List.mem_filter.mp h2).2
    unfold bulletInBounds at h3
    simp only [Bool.and_eq_true, decide_eq_true_eq] at h3
    exact ⟨h3.1.1, h3.1.2, h3.2⟩
  · left
    exact h

/-- C4 amended witness: the sample in-bounds projectile survives the tick
and the theorem yields its bounds. -/
theorem c4_bounds_amended_witness :
    bStay ∈ (combatPhase cEx DEV_MODE_GOD_MODE [] sStay).bullets
    ∧ (bStay ∈ ([] : List Bullet) ∨ (-100 < bStay.x ∧
        bStay.x < cEx.GAME_WIDTH + 100 ∧
        bStay.y < cEx.GAME_HEIGHT + 100)) := by
  have hb : bStay ∈ (combatPhase cEx DEV_MODE_GOD_MODE [] sStay).bullets := by
    norm_num [combatPhase, tickEvents, processBullets, movedBullets,
      moveBullet, bulletInBounds, bulletEvents, checkCollision,
      playerAfterDamage, sumAmounts, enemiesAfterDamage, enemyApply,
      crateApply, cageUpdate, cageHits, cageDamage, swapHeroApply,
      survivingBullets, cEx, pEx, pFar, bStay, sStay, DEV_MODE_GOD_MODE,
      Bullet.rect, Player.rect, owner_beq, tk_beq, owner_bne,
      rifle_no_grenade]
  exact ⟨hb, c4_bounds_amended cEx DEV_MODE_GOD_MODE [] sStay bStay hb⟩

/-- C8: on HARD difficulty an enemy shot yields exactly three projectiles
sharing one horizontal velocity with vertical velocities 0, 2 and -2 (a
vertical spread with fixed offset 2), while EASY and NORMAL yield a
single projectile, for every shooter geometry and target position. -/
theorem c8_hard_triple_spread (c : Consts) (startId : ℕ) (w : String)
    (sx sy sw sh targetX : ℚ) :
    (createEnemyBullet c Difficulty.HARD startId ShooterKind.enemy w
        sx sy sw sh targetX).length = 3
    ∧ (createEnemyBullet c Difficulty.HARD startId ShooterKind.enemy w
        sx sy sw sh targetX).map Bullet.vx =
        [(if targetX > sx then (1 : ℚ) else -1) * c.BULLET_SPEED * 0.8,
         (if targetX > sx then (1 : ℚ) else -1) * c.BULLET_SPEED * 0.8,
         (if targetX > sx then (1 : ℚ) else -1) * c.BULLET_SPEED * 0.8]
    ∧ (createEnemyBullet c Difficulty.HARD startId ShooterKind.enemy w
        sx sy sw sh targetX).map Bullet.vy = [0, 2, -2]
    ∧ (createEnemyBullet c Difficulty.EASY startId ShooterKind.enemy w
        sx sy sw sh targetX).length = 1
    ∧ (createEnemyBullet c Difficulty.NORMAL startId ShooterKind.enemy w
        sx sy sw sh targetX).length = 1 := by
  unfold createEnemyBullet createBullet
  simp

/-- C5: a cage crossing from positive to non-positive health in one
tick of damage application triggers the rescue exactly once: the crossing
flag is set this tick, the stored cage ends at non-positive health, and
no later tick can trigger the same cage again (its health can never
return above zero); each triggered flag contributes exactly one extra
life and one profile-swap request, as the lives ledger of the combat
phase shows. -/
theorem c5_cage_rescue_exactly_once (evs : List DamageEvent)
    (cg : RescueCage) (h1 : 0 < cg.health)
    (h2 : cg.health ≤ cageDamage evs cg) :
    (cageUpdate evs cg).2 = true
    ∧ (cageUpdate evs cg).1.health ≤ 0
    ∧ (∀ evs2 : List DamageEvent,
        (cageUpdate evs2 (cageUpdate evs cg).1).2 = false)
    ∧ (∀ (c : Consts) (g : Bool) (nb : List Bullet) (s : CombatState),
        (combatPhase c g nb s).player.lives =
          s.player.lives + (combatPhase c g nb s).rescues) := by
  have hne : (cageHits evs cg).length ≠ 0 := by
    intro h0
    have hz : cageDamage evs cg = 0 := by
      unfold cageDamage sumAmounts
      rw [List.length_eq_zero.mp h0]
      rfl
    rw [hz] at h2
    linarith
  have hupd : cageUpdate evs cg =
      ({ cg with health := cg.health - cageDamage evs cg },
       decide (cg.health - cageDamage evs cg ≤ 0) &&
       decide (cg.health > 0)) := by
    unfold cageUpdate
    rw [if_neg (by simpa using hne)]
  refine ⟨?_, ?_, ?_, combatPhase_lives⟩
  · rw [hupd]
    simp only [Bool.and_eq_true, decide_eq_true_eq]
    exact ⟨by linarith, h1⟩
  · rw [hupd]
    simpa using by linarith
  · intro evs2
    rw [hupd]
    unfold cageUpdate
    split
    · rfl
    · have hle : ¬ (({ cg with health := cg.health - cageDamage evs cg } :
          RescueCage).health > 0) := by
        simp only [not_lt]
        show cg.health - cageDamage evs cg ≤ 0
        linarith
      simp [hle]

/-- C5 witness: the sample cage at 10 health takes a 30-damage event, the
hypotheses hold and the rescue triggers. -/
theorem c5_cage_rescue_exactly_once_witness :
    0 < cgEx.health ∧ cgEx.health ≤ cageDamage [evCage] cgEx
    ∧ (cageUpdate [evCage] cgEx).2 = true := by
  have h1 : 0 < cgEx.health := by norm_num [cgEx]
  have h2 : cgEx.health ≤ cageDamage [evCage] cgEx := by
    norm_num [cgEx, evCage, cageDamage, cageHits, sumAmounts, tk_beq]
  exact ⟨h1, h2, (c5_cage_rescue_exactly_once [evCage] cgEx h1 h2).1⟩

lemma cooldownStep_iter (v : ℚ) (hv : 0 ≤ v) :
    ∀ k : ℕ, cooldownStep^[k] v = max 0 (v - k) := by
  intro k
  induction k with
  | zero =>
    simpa using (max_eq_right hv).symm
  | succ n ih =>
    rw [Function.iterate_succ_apply', ih]
    unfold cooldownStep
    have hc : ((n + 1 : ℕ) : ℚ) = (n : ℚ) + 1 := by push_cast; ring
    rcases le_total (v - (n : ℚ)) 0 with h | h
    · rw [max_eq_left h, hc, max_eq_left (by linarith),
        max_eq_left (by linarith)]
    · rw [max_eq_right h, hc]
      have harg : v - (n : ℚ) - 1 = v - ((n : ℚ) + 1) := by ring
      rw [harg]

lemma ticksToReady_ready (v : ℚ) (hv : 0 ≤ v) :
    cooldownStep^[ticksToReady v] v = 0 := by
  rw [cooldownStep_iter v hv]
  unfold ticksToReady
  have h2 : (⌈v⌉ : ℚ) ≤ ((⌈v⌉.toNat : ℕ) : ℚ) := by
    exact_mod_cast Int.self_le_toNat _
  have h1 : v ≤ ((⌈v⌉.toNat : ℕ) : ℚ) := le_trans (Int.le_ceil v) h2
  exact max_eq_left (by linarith)

lemma ticksToReady_min (v : ℚ) (hv : 0 ≤ v) (k : ℕ)
    (hk : k < ticksToReady v) : cooldownStep^[k] v ≠ 0 := by
  rw [cooldownStep_iter v hv]
  unfold ticksToReady at hk
  have h2 : (k : ℤ) < ⌈v⌉ := by
    exact_mod_cast Int.lt_toNat.mp hk
  have h3 : ((k : ℤ) : ℚ) ≤ (⌈v⌉ : ℚ) - 1 := by
    have := Int.le_sub_one_of_lt h2
    exact_mod_cast this
  have h4 : (⌈v⌉ : ℚ) - 1 < v := by
    have := Int.ceil_lt_add_one v
    linarith
  have h5 : (k : ℚ) < v := by
    have hkk : ((k : ℤ) : ℚ) = (k : ℚ) := by push_cast; ring
    linarith [hkk ▸ h3]
  rw [max_eq_right (by linarith)]
  intro h0
  have : v = (k : ℚ) := by linarith [sub_eq_zero.mp h0]
  linarith

lemma ticksToReady_half (v : ℚ) (_hv : 0 ≤ v) :
    ticksToReady (v / 2) = (ticksToReady v + 1) / 2 := by
  have key : ∀ k : ℕ, ticksToReady (v / 2) ≤ k ↔ ticksToReady v ≤ 2 * k := by
    intro k
    unfold ticksToReady
    rw [Int.toNat_le, Int.toNat_le, Int.ceil_le, Int.ceil_le]
    constructor
    · intro h
      push_cast at h ⊢
      linarith
    · intro h
      push_cast at h ⊢
      linarith
  apply eq_of_forall_ge_iff
  intro k
  rw [key k]
  generalize ticksToReady v = n
  omega

/-- C6: with rapid-fire active, the cooldown the firing block stores is
half the value stored with no effect (for each weapon branch), and the
fire gate reopens after exactly the ceiling of half the normal number of
countdown ticks: writing N for the ticks after which firing is possible
with no effect, the rapid-fire count is (N + 1) / 2 in natural division,
which is the ceiling of N / 2; the gate is closed at every earlier
count. -/
theorem c6_rapid_fire_halves_cooldown (c : Consts) (startId : ℕ)
    (rand : ℕ → ℚ) (cosFn sinFn : ℚ → ℚ) (p : Player) (vn vr : ℚ)
    (hB : 0 ≤ c.BULLET_COOLDOWN)
    (hn : (shootResult c startId rand cosFn sinFn
        { p with activePowerUp := none }).2 = some vn)
    (hr : (shootResult c startId rand cosFn sinFn
        { p with activePowerUp := some PowerUpType.rapid_fire }).2 =
        some vr) :
    ticksToReady vr = (ticksToReady vn + 1) / 2
    ∧ canFire true (cooldownStep^[ticksToReady vr] vr) = true
    ∧ (∀ k, k < ticksToReady vr → canFire true (cooldownStep^[k] vr) = false)
    ∧ canFire true (cooldownStep^[ticksToReady vn] vn) = true
    ∧ (∀ k, k < ticksToReady vn →
        canFire true (cooldownStep^[k] vn) = false) := by
  have hpair : vr = vn / 2 ∧ 0 ≤ vn := by
    unfold shootResult at hn hr
    by_cases hs : strIncludes (strToLower p.weaponType) "shotgun" = true <;>
    by_cases hgr : strIncludes (strToLower p.weaponType) "grenade" = true <;>
    simp [optPow_beq, none_ne_somePow, pow_rs, hs, hgr] at hn hr <;>
    constructor <;> first
      | (rw [← hn, ← hr]; ring)
      | (rw [← hn]; linarith)
  obtain ⟨hrel, hvn⟩ := hpair
  have hvr : 0 ≤ vr := by rw [hrel]; linarith
  refine ⟨?_, ?_, ?_, ?_, ?_⟩
  · rw [hrel, ticksToReady_half vn hvn]
  · rw [ticksToReady_ready vr hvr]
    simp [canFire]
  · intro k hk
    have := ticksToReady_min vr hvr k hk
    simp [canFire, this]
  · rw [ticksToReady_ready vn hvn]
    simp [canFire]
  · intro k hk
    have := ticksToReady_min vn hvn k hk
    simp [canFire, this]

/-- C6 witness: with the sample configuration (bullet cooldown 15) and
the rifle, the no-effect block stores 15 and the rapid-fire block stores
15 / 2; the reopening tick counts are 8 and 15, and 8 = (15 + 1) / 2. -/
theorem c6_rapid_fire_halves_cooldown_witness :
    (0 : ℚ) ≤ cEx.BULLET_COOLDOWN
    ∧ (shootResult cEx 0 zeroRand zeroFn zeroFn
        { pEx with activePowerUp := none }).2 = some 15
    ∧ (shootResult cEx 0 zeroRand zeroFn zeroFn
        { pEx with activePowerUp := some PowerUpType.rapid_fire }).2 =
        some (15 / 2)
    ∧ ticksToReady (15 / 2) = (ticksToReady 15 + 1) / 2 := by
  have h0 : (0 : ℚ) ≤ cEx.BULLET_COOLDOWN := by norm_num [cEx]
  have h1 : (shootResult cEx 0 zeroRand zeroFn zeroFn
      { pEx with activePowerUp := none }).2 = some 15 := by
    norm_num [shootResult, cEx, pEx, optPow_beq, none_ne_somePow,
      rifle_no_shotgun, rifle_no_grenade]
  have h2 : (shootResult cEx 0 zeroRand zeroFn zeroFn
      { pEx with activePowerUp := some PowerUpType.rapid_fire }).2 =
      some (15 / 2) := by
    norm_num [shootResult, cEx, pEx, optPow_beq, pow_rs,
      rifle_no_shotgun, rifle_no_grenade]
  exact ⟨h0, h1, h2,
    (c6_rapid_fire_halves_cooldown cEx 0 zeroRand zeroFn zeroFn pEx
      15 (15 / 2) h0 h1 h2).1⟩

/-- C10: with the spread-shot effect active, no firing branch stores a
fire cooldown, for every weapon type; the cooldown state therefore stays
at zero through the next countdown, and the fire gate passes again on the
very next tick with the fire input held. -/
theorem c10_spread_shot_skips_cooldown (c : Consts) (startId : ℕ)
    (rand : ℕ → ℚ) (cosFn sinFn : ℚ → ℚ) (p : Player) :
    (shootResult c startId rand cosFn sinFn
        { p with activePowerUp := some PowerUpType.spread_shot }).2 = none
    ∧ cooldownStep 0 = 0
    ∧ canFire true (cooldownStep 0) = true := by
  refine ⟨?_, ?_, ?_⟩
  · unfold shootResult
    simp
  · unfold cooldownStep
    norm_num
  · unfold canFire cooldownStep
    norm_num

/-- C7: for an identical weapon, tick and input (same configuration,
factory counter, random stream and host trigonometry), the projectile
list fired with damage-boost active equals the no-effect list with the damage of every
projectile doubled: positions, velocities and identifiers
coincide and each damage value is exactly twice its counterpart. -/
theorem c7_damage_boost_doubles_damage (c : Consts) (startId : ℕ)
    (rand : ℕ → ℚ) (cosFn sinFn : ℚ → ℚ) (p : Player) :
    (shootResult c startId rand cosFn sinFn
        { p with activePowerUp := some PowerUpType.damage_boost }).1 =
      ((shootResult c startId rand cosFn sinFn
        { p with activePowerUp := none }).1).map
        (fun b => { b with damage := 2 * b.damage }) := by
  unfold shootResult
  by_cases hs : strIncludes (strToLower p.weaponType) "shotgun" = true <;>
  by_cases hgr : strIncludes (strToLower p.weaponType) "grenade" = true <;>
  simp [optPow_beq, none_ne_somePow, pow_bs, pow_br, hs, hgr,
    createBullet, List.range_succ] <;>
  norm_num

/-- C9: a buffered jump command arriving with the coyote counter at zero
while airborne, not wall-sliding, and without the double-jump movement
trait resolves to no jump: the vertical velocity is returned unchanged,
no jump sound is emitted, and the buffered command is not consumed. -/
theorem c9_no_jump_at_coyote_expiry (c : Consts) (p : Player) (vy : ℚ)
    (hD : strIncludes (strToLower p.movementAbility) "double" = false) :
    (jumpStep c p true 0 false false vy).didJump = false
    ∧ (jumpStep c p true 0 false false vy).yVelocity = vy
    ∧ (jumpStep c p true 0 false false vy).consumed = false
    ∧ (jumpStep c p true 0 false false vy).sounds = [] := by
  unfold jumpStep
  simp [hD]

/-- C9 witness: the movement ability of the sample avatar is the word Jump,
which does not contain double, and the theorem applies at vertical
velocity 3. -/
theorem c9_no_jump_at_coyote_expiry_witness :
    strIncludes (strToLower pEx.movementAbility) "double" = false
    ∧ (jumpStep cEx pEx true 0 false false 3).didJump = false := by
  have hD : strIncludes (strToLower pEx.movementAbility) "double" = false := by
    decide
  exact ⟨hD, (c9_no_jump_at_coyote_expiry cEx pEx 3 hD).1⟩

end Broforce
